import Mathlib

/-!
Shallow embedding of the IMAGE-MERGE-GEMINI client.

Source files modelled:
  * `src/services/geminiService.ts` — the generation client
    `generateImageFromReferences`, the types `AspectRatio`, `ReferenceImage`
    and `ImagePart`;
  * the application component (`App`) — state of the upload form and its
    handlers `handleFileChange`, `handleRemoveImage`, `handleGenerate`.

The external Gemini service is opaque: it is modelled as a function from the
built request to either a list of response parts or a thrown error.  The
generation client returns, besides its `Except` outcome, the list of requests
it actually sent, so that "the service is not contacted" is expressible.
-/

/-- `inlineData` payload of a part: base64 `data` plus declared `mimeType`. -/
structure InlineData where
  data : String
  mimeType : String
deriving Repr, DecidableEq

/-- `ImagePart` from `types.ts`: `{ inlineData: { data, mimeType } }`. -/
structure ImagePart where
  inlineData : InlineData
deriving Repr, DecidableEq

/-- A part of the request `contents`: the instruction text or an image. -/
inductive ReqPart where
  | text (s : String)
  | image (p : ImagePart)
deriving Repr, DecidableEq

/-- Response modality requested in the call `config`. -/
inductive Modality where
  | IMAGE
deriving Repr, DecidableEq

/-- One content part of the service response; `inlineData` may be absent
(e.g. a text part), mirroring `part.inlineData &&` in the source. -/
structure RespPart where
  inlineData : Option InlineData
deriving Repr, DecidableEq

/-- The single request `generateImageFromReferences` builds for
`ai.models.generateContent`. -/
structure GenRequest where
  model : String
  parts : List ReqPart
  responseModalities : List Modality
deriving Repr, DecidableEq

/-- Outcome of the external call: the parts of `response.candidates[0].content`
on success, or a thrown error (`some msg` when it is an `Error` carrying a
message, `none` for a non-`Error` throw). -/
inductive ServiceResult where
  | ok (parts : List RespPart)
  | err (msg : Option String)
deriving Repr, DecidableEq

/-- Text of the instruction before the interpolated aspect-ratio token. -/
def promptHead : String :=
  "Combine the visual characteristics (style, colors, lighting, pose, outfit vibe, composition) of these reference images into a single new, coherent, and realistic image. The final image must have a "

/-- Text of the instruction after the interpolated aspect-ratio token. -/
def promptTail : String :=
  " aspect ratio. Ensure consistent anatomy and lighting. The image should be high-detail, photorealistic, and PG-13. Crucially, DO NOT include any text, watermarks, or UI elements in the final image."

/-- The template-literal prompt of `geminiService.ts`, line 22. -/
def buildPrompt (aspect : String) : String :=
  promptHead ++ aspect ++ promptTail

/-- The request assembled on lines 24-34: one text part, then the supplied
image parts in order, model name and image-only response modality. -/
def buildRequest (imageParts : List ImagePart) (aspect : String) : GenRequest :=
  { model := "gemini-2.5-flash-image"
    parts := ReqPart.text (buildPrompt aspect) :: imageParts.map ReqPart.image
    responseModalities := [Modality.IMAGE] }

/-- Validation message of line 17. -/
def validationMsg : String := "Please provide 2 to 4 reference images."

/-- Message thrown on line 43 when no image part is found. -/
def noImageMsg : String :=
  "No image was generated. The model may have refused the request due to safety policies."

/-- Fallback of line 47 for a thrown value that is not an `Error`. -/
def unknownErrMsg : String := "An unknown error occurred during image generation."

/-- Prefix added by the catch block on line 48. -/
def failurePre : String := "Failed to generate image: "

/-- The test `mimeType.startsWith("image/")` of line 38, translated as a
prefix check on the character sequence (`String.startsWith` itself is defined
by well-founded recursion on byte positions and does not reduce in the
kernel). -/
def startsWithImage (m : String) : Bool :=
  "image/".data.isPrefixOf m.data

/-- The scan of lines 37-41: first part whose `inlineData` is present and whose
`mimeType` starts with "image/"; returns its `data`. -/
def findImageData : List RespPart → Option String
  | [] => none
  | p :: rest =>
    match p.inlineData with
    | some d => if startsWithImage d.mimeType then some d.data else findImageData rest
    | none => findImageData rest

/-- `generateImageFromReferences` (lines 12-50).  `service` is the opaque
external endpoint.  Returns the outcome together with the list of requests
sent: `[]` when validation rejects the call before any contact, `[req]`
otherwise.  The throw on line 43 happens inside the `try`, so the catch block
rewraps it with `failurePre` exactly like a service failure. -/
def generateImageFromReferences (service : GenRequest → ServiceResult)
    (imageParts : List ImagePart) (aspect : String) :
    Except String String × List GenRequest :=
  if imageParts.length < 2 || imageParts.length > 4 then
    (Except.error validationMsg, [])
  else
    let req := buildRequest imageParts aspect
    match service req with
    | ServiceResult.ok parts =>
      match findImageData parts with
      | some data => (Except.ok data, [req])
      | none => (Except.error (failurePre ++ noImageMsg), [req])
    | ServiceResult.err m =>
      (Except.error (failurePre ++ (match m with | some s => s | none => unknownErrMsg)), [req])

/-- Whether a response part would be accepted by the scan on line 38. -/
def isImagePart (p : RespPart) : Bool :=
  match p.inlineData with
  | some d => startsWithImage d.mimeType
  | none => false

/-- `data` of a response part, defaulting to "" when `inlineData` is absent. -/
def partData (p : RespPart) : String :=
  match p.inlineData with
  | some d => d.data
  | none => ""

/-!  Application component (`App`): state and handlers. -/

/-- The fields of a browser `File` the app reads: `name` and `type`. -/
structure FileData where
  name : String
  mime : String
deriving Repr, DecidableEq

/-- `ReferenceImage` from `types.ts`: id, file handle, base64 payload. -/
structure ReferenceImage where
  id : String
  file : FileData
  base64 : String
deriving Repr, DecidableEq

/-- One selected file together with the `Date.now()` value observed while its
id was built and the result of `fileToBase64`. -/
structure UploadItem where
  file : FileData
  time : Nat
  b64 : String
deriving Repr, DecidableEq

/-- The id assigned on upload: the template literal `name-Date.now()`. -/
def mkId (name : String) (t : Nat) : String :=
  name ++ "-" ++ toString t

/-- The `ReferenceImage` built for one selected file in `handleFileChange`. -/
def mkReferenceImage (u : UploadItem) : ReferenceImage :=
  { id := mkId u.file.name u.time, file := u.file, base64 := u.b64 }

/-- The five `useState` cells of `App`. -/
structure AppState where
  referenceImages : List ReferenceImage
  aspect : String
  generatedImage : Option String
  isLoading : Bool
  error : Option String
deriving Repr, DecidableEq

/-- Initial state of the component. -/
def initState : AppState :=
  { referenceImages := [], aspect := "1:1", generatedImage := none,
    isLoading := false, error := none }

/-- Error message set when an upload would exceed the 4-image cap. -/
def capMsg : String := "You can upload a maximum of 4 images."

/-- `handleFileChange`: rejects the whole batch when the total would exceed 4,
otherwise clears the error and appends the new images in order. -/
def handleFileChange (s : AppState) (items : List UploadItem) : AppState :=
  if s.referenceImages.length + items.length > 4 then
    { s with error := some capMsg }
  else
    { s with error := none,
             referenceImages := s.referenceImages ++ items.map mkReferenceImage }

/-- `handleRemoveImage`: filters out the clicked id; the below-minimum check
uses the length of the list captured before the removal. -/
def handleRemoveImage (s : AppState) (id : String) : AppState :=
  { s with referenceImages := s.referenceImages.filter (fun img => img.id != id),
           generatedImage :=
             if s.referenceImages.length - 1 < 2 then none else s.generatedImage }

/-- Start of `handleGenerate` (lines before the `await`): the under-2 guard,
then loading on, error and previous result cleared. -/
def handleGenerateStart (s : AppState) : AppState :=
  if s.referenceImages.length < 2 then
    { s with error := some "Please upload at least 2 images." }
  else
    { s with isLoading := true, error := none, generatedImage := none }

/-- Resumption of `handleGenerate` when the awaited call succeeded. -/
def handleGenerateSuccess (s : AppState) (data : String) : AppState :=
  { s with generatedImage := some data, isLoading := false }

/-- Resumption of `handleGenerate` when the awaited call threw. -/
def handleGenerateFailure (s : AppState) (msg : String) : AppState :=
  { s with error := some msg, isLoading := false }

/-- `canGenerate` guard of the generate button. -/
def canGenerate (s : AppState) : Bool :=
  2 ≤ s.referenceImages.length && s.referenceImages.length ≤ 4

/-- One user-visible transition of the component.  Upload, remove and the
aspect selector are always active; the generate button is clickable only when
enabled (`canGenerate` and not loading); a generation resolves (with the
service result or a thrown error) only while a call is in flight. -/
inductive Step : AppState → AppState → Prop where
  | upload (s : AppState) (items : List UploadItem) :
      Step s (handleFileChange s items)
  | removeImg (s : AppState) (id : String) :
      Step s (handleRemoveImage s id)
  | setRatio (s : AppState) (r : String) :
      Step s { s with aspect := r }
  | genStart (s : AppState) :
      s.isLoading = false → canGenerate s = true → Step s (handleGenerateStart s)
  | genOk (s : AppState) (d : String) :
      s.isLoading = true → Step s (handleGenerateSuccess s d)
  | genErr (s : AppState) (m : String) :
      s.isLoading = true → Step s (handleGenerateFailure s m)

/-- States reachable from the freshly mounted component. -/
inductive Reachable : AppState → Prop where
  | init : Reachable initState
  | step {s t : AppState} : Reachable s → Step s t → Reachable t

/-- Inductive invariant of the component used to settle the error/result
exclusivity question: a displayed result is absent while a call is in flight,
in-flight errors can only be the upload-cap message, and whenever an error
and a result are stored together the error is the upload-cap message. -/
def AppInv (s : AppState) : Prop :=
  (s.isLoading = true → s.generatedImage = none) ∧
  (s.isLoading = true → s.error = none ∨ s.error = some capMsg) ∧
  (s.error ≠ none → s.generatedImage ≠ none → s.error = some capMsg)

/-- Decimal digit characters of `n`, most significant first: the list
`Nat.toDigits 10 n` produces, re-stated by well-founded recursion on `n` so
that proofs can recurse on the value instead of core's fuel argument. -/
def decDigits (n : Nat) : List Char :=
  if _h : n < 10 then [Nat.digitChar n]
  else decDigits (n / 10) ++ [Nat.digitChar (n % 10)]
decreasing_by exact Nat.div_lt_self (by omega) (by omega)

/-- Numeric value of a decimal digit character. -/
def charVal (c : Char) : Nat := c.toNat - 48

/-- Value of a most-significant-first decimal digit string. -/
def ofDigits (l : List Char) : Nat :=
  l.foldl (fun a c => a * 10 + charVal c) 0

/-!  Concrete fixtures used by witnesses and counterexamples. -/

/-- A sample image payload. -/
def imgA : ImagePart := ⟨⟨"AAAA", "image/png"⟩⟩

/-- A second sample image payload. -/
def imgB : ImagePart := ⟨⟨"BBBB", "image/jpeg"⟩⟩

/-- A sample selected file. -/
def fileA : FileData := ⟨"a.png", "image/png"⟩

/-- A second sample selected file. -/
def fileB : FileData := ⟨"b.png", "image/png"⟩

/-- A valid two-file batch. -/
def batch2 : List UploadItem := [⟨fileA, 5, "AAAA"⟩, ⟨fileB, 5, "BBBB"⟩]

/-- A three-file batch. -/
def batch3 : List UploadItem :=
  [⟨⟨"c.png", "image/png"⟩, 9, "CCCC"⟩, ⟨⟨"d.png", "image/png"⟩, 9, "DDDD"⟩,
   ⟨⟨"e.png", "image/png"⟩, 9, "EEEE"⟩]

/-- Two same-named files selected in one batch at the same millisecond. -/
def dupBatch : List UploadItem := [⟨fileA, 5, "AAAA"⟩, ⟨fileA, 5, "BBBB"⟩]

/-- State after uploading `batch2`, starting a generation and receiving a
successful result. -/
def sGen : AppState :=
  handleGenerateSuccess (handleGenerateStart (handleFileChange initState batch2)) "RESULT"

/-- `sGen` after an upload attempt that exceeds the 4-image cap. -/
def sBoth : AppState := handleFileChange sGen batch3

/-- State after uploading `dupBatch` into the fresh component. -/
def dupState : AppState := handleFileChange initState dupBatch

/-- A three-file batch at one millisecond in which two files share a name,
so two of the assigned ids collide. -/
def dupBatch3 : List UploadItem :=
  [⟨fileA, 5, "AAAA"⟩, ⟨fileA, 5, "XXXX"⟩, ⟨fileB, 5, "BBBB"⟩]

/-- State after uploading `dupBatch3`, starting a generation and receiving a
successful result: three stored images, two with id "a.png-5". -/
def sDupGen : AppState :=
  handleGenerateSuccess (handleGenerateStart (handleFileChange initState dupBatch3)) "RESULT"

/-!  Theorems. -/

theorem gen_valid_eq (service : GenRequest → ServiceResult)
    (imageParts : List ImagePart) (aspect : String)
    (h2 : 2 ≤ imageParts.length) (h4 : imageParts.length ≤ 4) :
    generateImageFromReferences service imageParts aspect =
      (match service (buildRequest imageParts aspect) with
       | ServiceResult.ok parts =>
         match findImageData parts with
         | some data => (Except.ok data, [buildRequest imageParts aspect])
         | none => (Except.error (failurePre ++ noImageMsg), [buildRequest imageParts aspect])
       | ServiceResult.err m =>
         (Except.error (failurePre ++ (match m with | some s => s | none => unknownErrMsg)),
          [buildRequest imageParts aspect])) := by
  have hc : (imageParts.length < 2 || imageParts.length > 4) = false := by
    simp only [Bool.or_eq_false_iff, decide_eq_false_iff_not, Nat.not_lt]
    omega
  simp only [generateImageFromReferences, hc, Bool.false_eq_true, if_false]

/-- C1: with fewer than 2 or more than 4 reference images the call fails at
once with the validation message and sends no request to the service. -/
theorem c1_validation_blocks_service (service : GenRequest → ServiceResult)
    (imageParts : List ImagePart) (aspect : String)
    (h : imageParts.length < 2 ∨ imageParts.length > 4) :
    generateImageFromReferences service imageParts aspect =
      (Except.error validationMsg, []) := by
  have hc : (imageParts.length < 2 || imageParts.length > 4) = true := by
    rcases h with h | h <;> simp [h]
  simp only [generateImageFromReferences, hc, if_true]

theorem c1_witness :
    generateImageFromReferences (fun _ => ServiceResult.ok []) [] "1:1" =
      (Except.error validationMsg, []) :=
  c1_validation_blocks_service (fun _ => ServiceResult.ok []) [] "1:1" (Or.inl (by decide))

/-- C2: with 2-4 images the single request sent holds exactly one instruction
text part followed by the supplied image payloads in order, and the
instruction text embeds the aspect-ratio token between the two fixed prompt
halves. -/
theorem c2_request_shape (service : GenRequest → ServiceResult)
    (imageParts : List ImagePart) (aspect : String)
    (h2 : 2 ≤ imageParts.length) (h4 : imageParts.length ≤ 4) :
    (generateImageFromReferences service imageParts aspect).2 =
      [{ model := "gemini-2.5-flash-image"
         parts := ReqPart.text (promptHead ++ aspect ++ promptTail) ::
           imageParts.map ReqPart.image
         responseModalities := [Modality.IMAGE] }] := by
  rw [gen_valid_eq service imageParts aspect h2 h4]
  cases service (buildRequest imageParts aspect) with
  | ok parts =>
    cases hfd : findImageData parts <;> simp [hfd, buildRequest, buildPrompt]
  | err m => simp [buildRequest, buildPrompt]

theorem c2_witness :
    (generateImageFromReferences (fun _ => ServiceResult.ok []) [imgA, imgB] "9:16").2 =
      [{ model := "gemini-2.5-flash-image"
         parts := ReqPart.text (promptHead ++ "9:16" ++ promptTail) ::
           [imgA, imgB].map ReqPart.image
         responseModalities := [Modality.IMAGE] }] :=
  c2_request_shape (fun _ => ServiceResult.ok []) [imgA, imgB] "9:16" (by decide) (by decide)

theorem findImageData_cons (p : RespPart) (rest : List RespPart) :
    findImageData (p :: rest) =
      if isImagePart p then some (partData p) else findImageData rest := by
  cases hp : p.inlineData with
  | none => simp [findImageData, isImagePart, hp]
  | some d =>
    cases hsw : startsWithImage d.mimeType <;>
      simp [findImageData, isImagePart, partData, hp, hsw]

theorem gen_ok_eq (parts : List RespPart) (imageParts : List ImagePart)
    (aspect : String) (h2 : 2 ≤ imageParts.length) (h4 : imageParts.length ≤ 4) :
    generateImageFromReferences (fun _ => ServiceResult.ok parts) imageParts aspect =
      (match findImageData parts with
       | some data => (Except.ok data, [buildRequest imageParts aspect])
       | none => (Except.error (failurePre ++ noImageMsg), [buildRequest imageParts aspect])) := by
  rw [gen_valid_eq (fun _ => ServiceResult.ok parts) imageParts aspect h2 h4]

theorem findImageData_of_first (parts : List RespPart) (i : Nat) (p : RespPart)
    (hp : parts[i]? = some p) (hi : isImagePart p = true)
    (hmin : ∀ j q, j < i → parts[j]? = some q → isImagePart q = false) :
    findImageData parts = some (partData p) := by
  induction parts generalizing i with
  | nil => simp at hp
  | cons a rest ih =>
    rw [findImageData_cons]
    cases i with
    | zero =>
      rw [List.getElem?_cons_zero, Option.some.injEq] at hp
      subst hp
      rw [if_pos hi]
    | succ k =>
      rw [List.getElem?_cons_succ] at hp
      have ha : isImagePart a = false :=
        hmin 0 a (Nat.succ_pos k) List.getElem?_cons_zero
      rw [if_neg (by simp [ha])]
      exact ih k hp (fun j q hj hq => hmin (j + 1) q (by omega) (by simpa using hq))

/-- C3: when the response holds an image-typed inline part, the client returns
the payload of the first such part (in part order), ignoring everything after
it. -/
theorem c3_returns_first_image_part (imageParts : List ImagePart) (aspect : String)
    (parts : List RespPart) (i : Nat) (p : RespPart)
    (h2 : 2 ≤ imageParts.length) (h4 : imageParts.length ≤ 4)
    (hp : parts[i]? = some p) (hi : isImagePart p = true)
    (hmin : ∀ j q, j < i → parts[j]? = some q → isImagePart q = false) :
    (generateImageFromReferences (fun _ => ServiceResult.ok parts) imageParts aspect).1 =
      Except.ok (partData p) := by
  rw [gen_ok_eq parts imageParts aspect h2 h4]
  rw [findImageData_of_first parts i p hp hi hmin]

theorem c3_witness :
    (generateImageFromReferences
      (fun _ => ServiceResult.ok
        [⟨none⟩, ⟨some ⟨"TXT", "text/plain"⟩⟩, ⟨some ⟨"PIC1", "image/png"⟩⟩,
         ⟨some ⟨"PIC2", "image/png"⟩⟩])
      [imgA, imgB] "1:1").1 = Except.ok "PIC1" :=
  c3_returns_first_image_part [imgA, imgB] "1:1"
    [⟨none⟩, ⟨some ⟨"TXT", "text/plain"⟩⟩, ⟨some ⟨"PIC1", "image/png"⟩⟩,
     ⟨some ⟨"PIC2", "image/png"⟩⟩]
    2 ⟨some ⟨"PIC1", "image/png"⟩⟩ (by decide) (by decide) (by decide) (by decide)
    (by
      intro j q hj hq
      interval_cases j <;>
        (simp only [List.getElem?_cons_zero, List.getElem?_cons_succ,
           Option.some.injEq] at hq
         subst hq
         decide))

theorem findImageData_eq_none (parts : List RespPart)
    (h : ∀ p ∈ parts, isImagePart p = false) : findImageData parts = none := by
  induction parts with
  | nil => rfl
  | cons a rest ih =>
    have ha := h a (List.mem_cons_self a rest)
    rw [findImageData_cons, if_neg (by simp [ha])]
    exact ih (fun p hp => h p (List.mem_cons_of_mem a hp))

/-- C4: when no response part is image-typed, the client fails with the
no-image error instead of returning a payload. -/
theorem c4_no_image_part_fails (imageParts : List ImagePart) (aspect : String)
    (parts : List RespPart)
    (h2 : 2 ≤ imageParts.length) (h4 : imageParts.length ≤ 4)
    (h : ∀ p ∈ parts, isImagePart p = false) :
    (generateImageFromReferences (fun _ => ServiceResult.ok parts) imageParts aspect).1 =
      Except.error (failurePre ++ noImageMsg) := by
  rw [gen_ok_eq parts imageParts aspect h2 h4]
  rw [findImageData_eq_none parts h]

theorem c4_witness :
    (generateImageFromReferences
      (fun _ => ServiceResult.ok [⟨none⟩, ⟨some ⟨"TXT", "text/plain"⟩⟩])
      [imgA, imgB] "1:1").1 = Except.error (failurePre ++ noImageMsg) :=
  c4_no_image_part_fails [imgA, imgB] "1:1" [⟨none⟩, ⟨some ⟨"TXT", "text/plain"⟩⟩]
    (by decide) (by decide) (by decide)

/-- C5: a failure of the external call is re-raised as a single error carrying
the "Failed to generate image: " prefix plus the underlying message when the
thrown value has one (otherwise the generic unknown-error text), and exactly
one request was sent — the attempt is terminal, with no retry. -/
theorem c5_failure_rewrapped (m : Option String) (imageParts : List ImagePart)
    (aspect : String) (h2 : 2 ≤ imageParts.length) (h4 : imageParts.length ≤ 4) :
    generateImageFromReferences (fun _ => ServiceResult.err m) imageParts aspect =
      (Except.error (failurePre ++ m.getD unknownErrMsg),
       [buildRequest imageParts aspect]) := by
  rw [gen_valid_eq (fun _ => ServiceResult.err m) imageParts aspect h2 h4]
  cases m <;> rfl

theorem c5_witness :
    generateImageFromReferences (fun _ => ServiceResult.err (some "boom")) [imgA, imgB] "1:1" =
      (Except.error (failurePre ++ "boom"), [buildRequest [imgA, imgB] "1:1"]) ∧
    generateImageFromReferences (fun _ => ServiceResult.err none) [imgA, imgB] "1:1" =
      (Except.error (failurePre ++ unknownErrMsg), [buildRequest [imgA, imgB] "1:1"]) :=
  ⟨c5_failure_rewrapped (some "boom") [imgA, imgB] "1:1" (by decide) (by decide),
   c5_failure_rewrapped none [imgA, imgB] "1:1" (by decide) (by decide)⟩

/-- C10: the precondition violation is raised before the catch block, so its
message is exactly the validation text with no prefix, while the no-image
failure is raised inside the block and surfaces with the
"Failed to generate image: " prefix attached to the no-image text. -/
theorem c10_error_prefixing :
    (∀ (service : GenRequest → ServiceResult) (imageParts : List ImagePart)
       (aspect : String), imageParts.length < 2 ∨ imageParts.length > 4 →
       (generateImageFromReferences service imageParts aspect).1 =
         Except.error "Please provide 2 to 4 reference images.") ∧
    (∀ (imageParts : List ImagePart) (aspect : String) (parts : List RespPart),
       2 ≤ imageParts.length → imageParts.length ≤ 4 →
       (∀ p ∈ parts, isImagePart p = false) →
       (generateImageFromReferences (fun _ => ServiceResult.ok parts) imageParts aspect).1 =
         Except.error ("Failed to generate image: No image was generated. The model may have refused the request due to safety policies.")) := by
  constructor
  · intro service imageParts aspect h
    have hc : (imageParts.length < 2 || imageParts.length > 4) = true := by
      rcases h with h | h <;> simp [h]
    simp only [generateImageFromReferences, hc, if_true]
    rfl
  · intro imageParts aspect parts h2 h4 h
    rw [gen_ok_eq parts imageParts aspect h2 h4]
    rw [findImageData_eq_none parts h]
    rfl

theorem c10_witness :
    (generateImageFromReferences (fun _ => ServiceResult.ok []) [imgA] "1:1").1 =
      Except.error "Please provide 2 to 4 reference images." ∧
    (generateImageFromReferences (fun _ => ServiceResult.ok [⟨none⟩]) [imgA, imgB] "1:1").1 =
      Except.error "Failed to generate image: No image was generated. The model may have refused the request due to safety policies." :=
  ⟨c10_error_prefixing.1 (fun _ => ServiceResult.ok []) [imgA] "1:1" (Or.inl (by decide)),
   c10_error_prefixing.2 [imgA, imgB] "1:1" [⟨none⟩] (by decide) (by decide) (by decide)⟩

theorem length_filter_ne_id (l : List ReferenceImage) (id : String) :
    (l.filter (fun img => img.id != id)).length =
      l.length - l.countP (fun img => img.id == id) := by
  induction l with
  | nil => rfl
  | cons a t ih =>
    have hle : t.countP (fun img => img.id == id) ≤ t.length :=
      List.countP_le_length _
    by_cases ha : a.id = id <;>
      (simp [List.filter_cons, List.countP_cons, ha, ih]
       try omega)

theorem reachable_sDupGen : Reachable sDupGen := by
  have h0 : Reachable initState := Reachable.init
  have h1 : Reachable (handleFileChange initState dupBatch3) :=
    Reachable.step h0 (Step.upload initState dupBatch3)
  have h2 : Reachable (handleGenerateStart (handleFileChange initState dupBatch3)) :=
    Reachable.step h1 (Step.genStart _ (by decide) (by decide))
  exact Reachable.step h2 (Step.genOk _ "RESULT" (by decide))

/-- C6 counterexample: in the reachable state `sDupGen` — three images, two of
them sharing id "a.png-5" after a same-name same-millisecond batch, with a
result displayed — removing "a.png-5" deletes both carriers, so only one
image remains (below 2), yet the handler's check compares the previous length
minus one (3 - 1 = 2, not < 2) and leaves the result displayed. -/
theorem c6_counterexample :
    Reachable sDupGen ∧
    sDupGen.generatedImage = some "RESULT" ∧
    (sDupGen.referenceImages.filter (fun img => img.id != "a.png-5")).length = 1 ∧
    (handleRemoveImage sDupGen "a.png-5").generatedImage = some "RESULT" :=
  ⟨reachable_sDupGen, by decide, by decide, by decide⟩

/-- C6 (amended): removing a reference image whose id is held by exactly one
stored image while a generated result is displayed clears the result whenever
the remaining image count drops below 2; when the clicked id is shared by
several images (possible per the id-collision correction) the handler removes
them all but checks the previous length minus one, so the result may survive a
drop below 2. -/
theorem c6_remove_below_min_clears_result (s : AppState) (id : String)
    (hone : s.referenceImages.countP (fun img => img.id == id) = 1)
    (hrem : (s.referenceImages.filter (fun img => img.id != id)).length < 2) :
    (handleRemoveImage s id).generatedImage = none := by
  have h := length_filter_ne_id s.referenceImages id
  rw [hone] at h
  rw [h] at hrem
  simp only [handleRemoveImage]
  rw [if_pos hrem]

theorem c6_witness : (handleRemoveImage sGen "a.png-5").generatedImage = none :=
  c6_remove_below_min_clears_result sGen "a.png-5" (by decide) (by decide)

/-- C7: an upload batch that would push the total above 4 is rejected whole:
the cap error is set, no file is added, and the reference set (and the rest
of the state) is untouched. -/
theorem c7_cap_rejects_batch_whole (s : AppState) (items : List UploadItem)
    (h : s.referenceImages.length + items.length > 4) :
    (handleFileChange s items).referenceImages = s.referenceImages ∧
    (handleFileChange s items).error = some capMsg ∧
    (handleFileChange s items).generatedImage = s.generatedImage ∧
    (handleFileChange s items).isLoading = s.isLoading ∧
    (handleFileChange s items).aspect = s.aspect := by
  simp only [handleFileChange]
  rw [if_pos h]
  exact ⟨rfl, rfl, rfl, rfl, rfl⟩

theorem c7_witness :
    (handleFileChange sGen batch3).referenceImages = sGen.referenceImages ∧
    (handleFileChange sGen batch3).error = some capMsg ∧
    (handleFileChange sGen batch3).generatedImage = sGen.generatedImage ∧
    (handleFileChange sGen batch3).isLoading = sGen.isLoading ∧
    (handleFileChange sGen batch3).aspect = sGen.aspect :=
  c7_cap_rejects_batch_whole sGen batch3 (by decide)

theorem appInv_step {s t : AppState} (hI : AppInv s) (hst : Step s t) : AppInv t := by
  obtain ⟨k, l, m⟩ := hI
  cases hst with
  | upload items =>
    unfold handleFileChange
    split
    · exact ⟨k, fun _ => Or.inr rfl, fun _ _ => rfl⟩
    · exact ⟨k, fun _ => Or.inl rfl, fun he _ => absurd rfl he⟩
  | removeImg id =>
    unfold handleRemoveImage
    refine ⟨?_, l, ?_⟩
    · intro h
      split
      · rfl
      · exact k h
    · intro he hg
      by_cases hc : s.referenceImages.length - 1 < 2
      · rw [if_pos hc] at hg
        exact absurd rfl hg
      · rw [if_neg hc] at hg
        exact m he hg
  | setRatio r => exact ⟨k, l, m⟩
  | genStart hload hcan =>
    unfold handleGenerateStart
    have hge : ¬ s.referenceImages.length < 2 := by
      simp [canGenerate] at hcan
      omega
    rw [if_neg hge]
    exact ⟨fun _ => rfl, fun _ => Or.inl rfl, fun he _ => absurd rfl he⟩
  | genOk d hload =>
    refine ⟨?_, ?_, ?_⟩
    · intro h
      simp [handleGenerateSuccess] at h
    · intro h
      simp [handleGenerateSuccess] at h
    · intro he hg
      rcases l hload with h0 | h0
      · exact absurd h0 he
      · exact h0
  | genErr msg hload =>
    refine ⟨?_, ?_, ?_⟩
    · intro h
      simp [handleGenerateFailure] at h
    · intro h
      simp [handleGenerateFailure] at h
    · intro he hg
      exact absurd (k hload) hg

theorem appInv_reachable {s : AppState} (h : Reachable s) : AppInv s := by
  induction h with
  | init => exact ⟨fun _ => rfl, fun _ => Or.inl rfl, fun he _ => absurd rfl he⟩
  | step hr hst ih => exact appInv_step ih hst

theorem reachable_sBoth : Reachable sBoth := by
  have h0 : Reachable initState := Reachable.init
  have h1 : Reachable (handleFileChange initState batch2) :=
    Reachable.step h0 (Step.upload initState batch2)
  have h2 : Reachable (handleGenerateStart (handleFileChange initState batch2)) :=
    Reachable.step h1 (Step.genStart _ (by decide) (by decide))
  have h3 : Reachable sGen :=
    Reachable.step h2 (Step.genOk _ "RESULT" (by decide))
  exact Reachable.step h3 (Step.upload sGen batch3)

/-- C8 counterexample: a reachable state stores a generation error and a
generated image at the same instant — upload two images, generate with
success, then attempt an upload that busts the 4-image cap: the cap error is
set while the result is still stored. -/
theorem c8_counterexample :
    Reachable sBoth ∧ sBoth.error ≠ none ∧ sBoth.generatedImage ≠ none :=
  ⟨reachable_sBoth, by decide, by decide⟩

/-- C8 (amended): in every reachable state, a stored error and a stored
generated image can coexist only when the error is the upload-cap rejection
message; all other operations keep the two mutually exclusive. -/
theorem c8_exclusivity_amended (s : AppState) (h : Reachable s)
    (he : s.error ≠ none) (hg : s.generatedImage ≠ none) :
    s.error = some capMsg :=
  (appInv_reachable h).2.2 he hg

theorem c8_witness : sBoth.error = some capMsg :=
  c8_exclusivity_amended sBoth reachable_sBoth (by decide) (by decide)

theorem digitChar_ne_dash (n : Nat) (hn : n < 10) : Nat.digitChar n ≠ '-' := by
  interval_cases n <;> decide

theorem toDigitsCore_append (b : Nat) : ∀ (fuel n : Nat) (ds : List Char),
    Nat.toDigitsCore b fuel n ds = Nat.toDigitsCore b fuel n [] ++ ds := by
  intro fuel
  induction fuel with
  | zero =>
    intro n ds
    simp [Nat.toDigitsCore]
  | succ f ih =>
    intro n ds
    simp only [Nat.toDigitsCore]
    split
    · simp
    · rw [ih (n / b) (Nat.digitChar (n % b) :: ds), ih (n / b) [Nat.digitChar (n % b)]]
      simp

theorem toDigitsCore_fuel (b : Nat) (hb : 2 ≤ b) : ∀ (n f₁ f₂ : Nat), n < f₁ → n < f₂ →
    Nat.toDigitsCore b f₁ n [] = Nat.toDigitsCore b f₂ n [] := by
  intro n
  induction n using Nat.strong_induction_on with
  | _ n ih =>
    intro f₁ f₂ h₁ h₂
    cases f₁ with
    | zero => omega
    | succ g₁ =>
      cases f₂ with
      | zero => omega
      | succ g₂ =>
        simp only [Nat.toDigitsCore]
        split
        · rfl
        · rename_i hnb
          have hpos : 0 < n := by
            rcases Nat.eq_zero_or_pos n with h0 | h0
            · subst h0
              simp [Nat.zero_div] at hnb
            · exact h0
          have hdiv : n / b < n := Nat.div_lt_self hpos (by omega)
          rw [toDigitsCore_append b g₁, toDigitsCore_append b g₂]
          rw [ih (n / b) hdiv g₁ g₂ (by omega) (by omega)]

theorem decDigits_eq (n : Nat) : Nat.toDigits 10 n = decDigits n := by
  induction n using Nat.strong_induction_on with
  | _ n ih =>
    rw [decDigits]
    split
    · rename_i h
      simp only [Nat.toDigits, Nat.toDigitsCore]
      rw [if_pos (Nat.div_eq_of_lt h)]
      rw [Nat.mod_eq_of_lt h]
    · rename_i h
      simp only [Nat.toDigits, Nat.toDigitsCore]
      have hd0 : ¬ (n / 10 = 0) := by
        have : 0 < n / 10 := Nat.div_pos (by omega) (by omega)
        omega
      rw [if_neg hd0]
      rw [toDigitsCore_append]
      rw [← ih (n / 10) (Nat.div_lt_self (by omega) (by omega))]
      have hfe : Nat.toDigits 10 (n / 10) = Nat.toDigitsCore 10 (n / 10 + 1) (n / 10) [] := rfl
      rw [hfe]
      rw [toDigitsCore_fuel 10 (by omega) (n / 10) n (n / 10 + 1)
        (by have := Nat.div_lt_self (show 0 < n by omega) (show 1 < 10 by omega); omega)
        (by omega)]

theorem mem_decDigits_ne_dash (n : Nat) : ∀ c ∈ decDigits n, c ≠ '-' := by
  induction n using Nat.strong_induction_on with
  | _ n ih =>
    rw [decDigits]
    split
    · rename_i h
      intro c hc
      rw [List.mem_singleton] at hc
      subst hc
      exact digitChar_ne_dash n h
    · rename_i h
      intro c hc
      rw [List.mem_append] at hc
      rcases hc with hc | hc
      · exact ih (n / 10) (Nat.div_lt_self (by omega) (by omega)) c hc
      · rw [List.mem_singleton] at hc
        subst hc
        exact digitChar_ne_dash (n % 10) (Nat.mod_lt n (by omega))

theorem charVal_digitChar : ∀ m, m < 10 → charVal (Nat.digitChar m) = m := by decide

theorem ofDigits_append_singleton (l : List Char) (c : Char) :
    ofDigits (l ++ [c]) = ofDigits l * 10 + charVal c := by
  simp [ofDigits, List.foldl_append]

theorem ofDigits_decDigits (n : Nat) : ofDigits (decDigits n) = n := by
  induction n using Nat.strong_induction_on with
  | _ n ih =>
    rw [decDigits]
    split
    · rename_i h
      simp [ofDigits, charVal_digitChar n h]
    · rename_i h
      rw [ofDigits_append_singleton]
      rw [ih (n / 10) (Nat.div_lt_self (by omega) (by omega))]
      rw [charVal_digitChar (n % 10) (Nat.mod_lt n (by omega))]
      omega

theorem decDigits_inj (m n : Nat) (h : decDigits m = decDigits n) : m = n := by
  have h2 := congrArg ofDigits h
  rwa [ofDigits_decDigits, ofDigits_decDigits] at h2

theorem repr_data_eq (t : Nat) : (Nat.repr t).data = decDigits t := by
  have h : (Nat.repr t).data = Nat.toDigits 10 t := rfl
  rw [h, decDigits_eq]

theorem append_dash_cancel : ∀ (x₁ : List Char) (y₁ x₂ y₂ : List Char),
    (∀ c ∈ x₁, c ≠ '-') → (∀ c ∈ x₂, c ≠ '-') →
    x₁ ++ '-' :: y₁ = x₂ ++ '-' :: y₂ → x₁ = x₂ ∧ y₁ = y₂ := by
  intro x₁
  induction x₁ with
  | nil =>
    intro y₁ x₂ y₂ h1 h2 heq
    cases x₂ with
    | nil =>
      simp only [List.nil_append, List.cons.injEq] at heq
      exact ⟨rfl, heq.2⟩
    | cons b u =>
      simp only [List.nil_append, List.cons_append, List.cons.injEq] at heq
      exact absurd heq.1.symm (h2 b (List.mem_cons_self b u))
  | cons a tl ih =>
    intro y₁ x₂ y₂ h1 h2 heq
    cases x₂ with
    | nil =>
      simp only [List.cons_append, List.nil_append, List.cons.injEq] at heq
      exact absurd heq.1 (h1 a (List.mem_cons_self a tl))
    | cons b u =>
      simp only [List.cons_append, List.cons.injEq] at heq
      obtain ⟨hab, htail⟩ := heq
      obtain ⟨hx, hy⟩ := ih y₁ u y₂ (fun c hc => h1 c (List.mem_cons_of_mem a hc))
        (fun c hc => h2 c (List.mem_cons_of_mem b hc)) htail
      exact ⟨by rw [hab, hx], hy⟩

theorem mkId_data (n : String) (t : Nat) :
    (mkId n t).data = n.data ++ '-' :: (Nat.repr t).data := by
  show (n ++ "-" ++ toString t).data = n.data ++ '-' :: (Nat.repr t).data
  rw [String.data_append, String.data_append, List.append_assoc]
  rfl

theorem mkId_inj (n₁ n₂ : String) (t₁ t₂ : Nat)
    (h : mkId n₁ t₁ = mkId n₂ t₂) : n₁ = n₂ ∧ t₁ = t₂ := by
  have hd := congrArg String.data h
  rw [mkId_data, mkId_data] at hd
  have hr := congrArg List.reverse hd
  simp only [List.reverse_append, List.reverse_cons] at hr
  rw [List.append_assoc, List.append_assoc, List.singleton_append, List.singleton_append] at hr
  obtain ⟨hx, hy⟩ := append_dash_cancel ((Nat.repr t₁).data.reverse) (n₁.data.reverse)
    ((Nat.repr t₂).data.reverse) (n₂.data.reverse)
    (fun c hc => mem_decDigits_ne_dash t₁ c
      (by rw [← repr_data_eq]; exact List.mem_reverse.mp hc))
    (fun c hc => mem_decDigits_ne_dash t₂ c
      (by rw [← repr_data_eq]; exact List.mem_reverse.mp hc))
    hr
  constructor
  · have hnd : n₁.data = n₂.data := by
      have h2 := congrArg List.reverse hy
      simpa using h2
    exact congrArg String.mk hnd
  · have hdd : (Nat.repr t₁).data = (Nat.repr t₂).data := by
      have h2 := congrArg List.reverse hx
      simpa using h2
    rw [repr_data_eq, repr_data_eq] at hdd
    exact decDigits_inj t₁ t₂ hdd

/-- C9 counterexample: two files with the same name selected in one batch at
the same millisecond receive identical identifiers, so identifiers are not
unique per upload. -/
theorem c9_counterexample :
    dupState.referenceImages.map (fun img => img.id) = ["a.png-5", "a.png-5"] ∧
    ¬ (dupState.referenceImages.map (fun img => img.id)).Nodup := by
  constructor
  · decide
  · decide

/-- C9 (amended): the identifier concatenates the file name and the upload
timestamp, so two uploads receive distinct identifiers whenever their file
names differ or their timestamps differ; only a pair sharing both collides. -/
theorem c9_id_unique_per_name_time (u₁ u₂ : UploadItem)
    (h : u₁.file.name ≠ u₂.file.name ∨ u₁.time ≠ u₂.time) :
    (mkReferenceImage u₁).id ≠ (mkReferenceImage u₂).id := by
  intro heq
  have hinj := mkId_inj u₁.file.name u₂.file.name u₁.time u₂.time heq
  rcases h with h | h
  · exact h hinj.1
  · exact h hinj.2

theorem c9_witness :
    (mkReferenceImage ⟨fileA, 5, "AAAA"⟩).id ≠ (mkReferenceImage ⟨fileB, 5, "BBBB"⟩).id :=
  c9_id_unique_per_name_time ⟨fileA, 5, "AAAA"⟩ ⟨fileB, 5, "BBBB"⟩ (Or.inl (by decide))
